import Mathlib

/-!
Verification of the gitbackup node-lifecycle scripts.

Shallow embedding of `spawn_node.py`, `providers/scaleway.py` and
`providers/hetzner.py`.  Pure computations (string parsing, request
payload construction) are translated directly; effectful calls
(subprocesses, HTTP requests, SSH commands, sleeps) are modelled by an
explicit `World` of external behaviours plus an event trace recording
every externally visible action in program order.

Strings are handled through their character lists with structural
helpers mirroring the Python primitives (`in`, `str.split`,
`str.count`), so every definition evaluates by kernel reduction.
-/

namespace GitBackup

/-! ## Python string primitives -/

/-- Split a character list at every character satisfying `p`, keeping
empty segments: the behaviour of Python `str.split(sep)` for a
one-character separator when `p` tests for that character. -/
def splitOnPred (p : Char → Bool) : List Char → List (List Char)
  | [] => [[]]
  | x :: xs =>
    if p x then [] :: splitOnPred p xs
    else
      match splitOnPred p xs with
      | [] => [[x]]
      | t :: ts => (x :: t) :: ts

/-- Python `needle in hay` (substring test; empty needle always in). -/
def pyIn (needle : List Char) : List Char → Bool
  | [] => needle.isEmpty
  | x :: xs => needle.isPrefixOf (x :: xs) || pyIn needle xs

/-- Python `s.split()` with no argument: split on whitespace runs,
discarding empty tokens. -/
def pySplitWs (cs : List Char) : List (List Char) :=
  (splitOnPred (fun c => c.isWhitespace) cs).filter (fun t => t ≠ [])

/-- Python `s.count('.')`. -/
def dotCount (cs : List Char) : Nat :=
  (cs.filter (fun c => c == '.')).length

/-- Python `s.split('\n')` as a list of lines (character lists). -/
def pyLines (s : String) : List (List Char) :=
  splitOnPred (fun c => c == '\n') s.data

/-! ## `get_vm_ip` (spawn_node.py lines 98-107)

The source iterates over `stdout.split('\n')`; on each line containing
`name` as a substring it scans the whitespace-separated tokens and
returns the first token with exactly three dots; if that line has no
such token the outer loop continues with the following lines; `None`
when the scan finishes without a hit. -/

def firstIpToken (parts : List (List Char)) : Option (List Char) :=
  parts.find? (fun part => dotCount part == 3)

def vmIpFromLines (name : List Char) : List (List Char) → Option (List Char)
  | [] => none
  | l :: ls =>
    if pyIn name l then
      match firstIpToken (pySplitWs l) with
      | some ip => some ip
      | none => vmIpFromLines name ls
    else vmIpFromLines name ls

def get_vm_ip (stdout name : String) : Option String :=
  (vmIpFromLines name.data (pyLines stdout)).map (fun cs => String.mk cs)

/-- Formalisation of claim C10's own description of the lookup (for
comparison with the source function `get_vm_ip`): take the first output
line containing the node name as a substring, return that line's first
whitespace-separated token with exactly three dots, and `none` when no
such line or token exists. -/
def get_vm_ip_claimed (stdout name : String) : Option String :=
  match (pyLines stdout).find? (fun l => pyIn name.data l) with
  | none => none
  | some l => (firstIpToken (pySplitWs l)).map (fun cs => String.mk cs)

/-- Corrected description of the lookup: the earliest line that both
contains the name as a substring and holds a token with exactly three
dots supplies the answer; matching lines without such a token are
skipped and later lines are still considered. -/
def get_vm_ip_amended (stdout name : String) : Option String :=
  match (pyLines stdout).find?
      (fun l => pyIn name.data l && (firstIpToken (pySplitWs l)).isSome) with
  | none => none
  | some l => (firstIpToken (pySplitWs l)).map (fun cs => String.mk cs)

/-! ## Provider scripts

Both provider scripts are driven through their CLI: `sys.argv[1]` is
the command, `sys.argv[2]` (when present) is the extra argument — for
`create` it is bound to `cloud_init_file`, for `destroy`/`snapshot` to
`server_id`.  HTTP calls are recorded as `PEvent`s; `api_request`
aborts the process on an HTTP error, except where the source wraps the
call in a bare `try/except` (noted per call site). -/

inductive PEvent where
  | apiGet (endpoint : String)
  | apiPost (endpoint : String) (action : String)
  | apiDelete (endpoint : String)
  | psleep (secs : Nat)
  | plog (msg : String)
deriving DecidableEq, Repr

/-- hetzner.py lines 45-51: fixed server parameters. The boolean field
`start_after_create` is rendered as the string "true". -/
def hetznerVM_CONFIG : List (String × String) :=
  [("name", "gitbackup-node"), ("server_type", "cx22"),
   ("image", "ubuntu-22.04"), ("location", "fsn1"),
   ("start_after_create", "true")]

/-- scaleway.py lines 57-62: fixed server parameters. The boolean field
`dynamic_ip_required` is rendered as the string "true". -/
def scalewayVM_CONFIG : List (String × String) :=
  [("name", "gitbackup-node"), ("commercial_type", "STARDUST1-S"),
   ("image", "ubuntu_jammy"), ("dynamic_ip_required", "true")]

/-- hetzner.py lines 99-109: the POST body of `create_server`.
`fs` models the filesystem (`Path(p).exists()`/`read`): `fs p = some c`
when the file at `p` exists with contents `c`.  The `cloud_init_file`
argument counts as set only when it is a non-empty string (Python
truthiness). -/
def hetzner_create_config (cloudInitFile : Option String)
    (fs : String → Option String) : List (String × String) :=
  match cloudInitFile with
  | none => hetznerVM_CONFIG
  | some p =>
    if p = "" then hetznerVM_CONFIG
    else
      match fs p with
      | none => hetznerVM_CONFIG
      | some contents => hetznerVM_CONFIG ++ [("user_data", contents)]

/-- scaleway.py lines 110-126: the POST body of `create_server`.
A configured project id (else organization id) is appended; the
cloud-init argument is read but never used (the source's TODO branch),
so it does not appear among the parameters.  Empty-string credentials
are modelled as `none` (Python truthiness). -/
def scaleway_create_config (projectId organizationId : Option String) :
    List (String × String) :=
  scalewayVM_CONFIG ++
    match projectId with
    | some pid => [("project", pid)]
    | none =>
      match organizationId with
      | some oid => [("organization", oid)]
      | none => []

/-- Provider CLI argument handling (hetzner.py lines 174-176,
scaleway.py lines 261-263): with script arguments `[cmd] ++ args`, the
extra argument of `create` is `sys.argv[2]` when present, else `None`. -/
def cliExtraArg (scriptArgs : List String) : Option String :=
  scriptArgs[1]?

/-! ### Scaleway destroy sequence (scaleway.py lines 142-197) -/

structure ScwVolume where
  id : String
  volumeType : String
deriving DecidableEq, Repr

/-- External state seen by `scaleway.py destroy`: the server list
returned by `GET servers` (name/id pairs), the volumes reported for a
server id, the server state reported by the i-th polling `GET`, and
which volume deletions fail. -/
structure ScwWorld where
  servers : List (String × String)
  volumesOf : String → List ScwVolume
  stateAt : Nat → String
  volDeleteFails : String → Bool

/-- scaleway.py lines 145-150 (also used at 204-209): find the id of
the server named `gitbackup-node`. -/
def scwFindServer (w : ScwWorld) : Option String :=
  (w.servers.find? (fun s => s.fst == "gitbackup-node")).map (fun s => s.snd)

/-- scaleway.py lines 173-180: `for i in range(30): sleep(1); GET the
server; stop when its state is "stopped"`. -/
def scwPoll (w : ScwWorld) (sid : String) : Nat → Nat → List PEvent
  | 0, _ => []
  | Nat.succ fuel, i =>
    PEvent.psleep 1 :: PEvent.apiGet ("servers/" ++ sid) ::
      (if w.stateAt i == "stopped" then [] else scwPoll w sid fuel (i + 1))

/-- scaleway.py lines 156-163: ids of the externally-attached
(`sbs_volume`) volumes of the server, collected before destruction. -/
def scwVolumeIds (w : ScwWorld) (sid : String) : List String :=
  (((w.volumesOf sid).filter (fun v => v.volumeType == "sbs_volume")).map
    (fun v => v.id))

/-- scaleway.py lines 191-197: delete each collected volume; the DELETE
is wrapped in `try/except`, so a failure only logs and the remaining
volumes are still processed. -/
def scwDeleteVolumes (w : ScwWorld) : List String → List PEvent
  | [] => []
  | vid :: rest =>
    PEvent.apiDelete ("volumes/" ++ vid) ::
      (if w.volDeleteFails vid then
        PEvent.plog ("Could not delete volume " ++ vid)
      else
        PEvent.plog ("Volume " ++ vid ++ " deleted")) ::
      scwDeleteVolumes w rest

/-- scaleway.py lines 187-197: when sbs volumes were attached, wait a
5-second settle period and delete each of them best-effort; when none
were attached nothing happens. -/
def scwVolumePhase (w : ScwWorld) (sid : String) : List PEvent :=
  match scwVolumeIds w sid with
  | [] => []
  | ids => PEvent.psleep 5 :: scwDeleteVolumes w ids

/-- scaleway.py lines 142-197, `destroy_server` with
`cleanup_volumes=True`: resolve the id (by lookup when no argument),
enumerate attached volumes, power off (bare `try/except`: failure
ignored), poll for the stopped state at most 30 times at one-second
intervals, delete the server, then run the volume-cleanup phase. -/
def scw_destroy_server (w : ScwWorld) (serverIdArg : Option String) :
    List PEvent :=
  let lookupEvts : List PEvent :=
    match serverIdArg with
    | some _ => []
    | none => [PEvent.apiGet "servers"]
  let sid? : Option String :=
    match serverIdArg with
    | some s => some s
    | none => scwFindServer w
  match sid? with
  | none => lookupEvts ++ [PEvent.plog "No server found to destroy"]
  | some sid =>
    lookupEvts ++
    [PEvent.apiGet ("servers/" ++ sid),
     PEvent.apiPost ("servers/" ++ sid ++ "/action") "poweroff"] ++
    scwPoll w sid 30 0 ++
    [PEvent.apiDelete ("servers/" ++ sid)] ++
    scwVolumePhase w sid

/-! ### Hetzner destroy sequence (hetzner.py lines 122-138) -/

/-- External state seen by `hetzner.py destroy`: the server list
returned by `GET servers` (name/id pairs). -/
structure HzWorld where
  servers : List (String × String)

def hzFindServer (w : HzWorld) : Option String :=
  (w.servers.find? (fun s => s.fst == "gitbackup-node")).map (fun s => s.snd)

/-- hetzner.py lines 122-138, `destroy_server`: resolve the id (by
lookup when no argument) and DELETE the server — no power-off, no
state polling, no volume cleanup. -/
def hz_destroy_server (w : HzWorld) (serverIdArg : Option String) :
    List PEvent :=
  let lookupEvts : List PEvent :=
    match serverIdArg with
    | some _ => []
    | none => [PEvent.apiGet "servers"]
  let sid? : Option String :=
    match serverIdArg with
    | some s => some s
    | none => hzFindServer w
  match sid? with
  | none => lookupEvts ++ [PEvent.plog "No server found to destroy"]
  | some sid => lookupEvts ++ [PEvent.apiDelete ("servers/" ++ sid)]

/-! ## Orchestrator (spawn_node.py)

`Provider` is the argparse choice set (spawn_node.py line 442).
`World` packages the behaviour of every external system touched by one
run: provider subprocess exit codes, the provider `list` output at each
successive `list` invocation, Cloudflare state, SSH reachability, the
exit codes of the remote bootstrap commands, and the Discord webhook
configuration/transport.  `Event` records the externally visible
actions in program order. -/

inductive Provider where
  | scaleway
  | hetzner
deriving DecidableEq, Repr

def Provider.name : Provider → String
  | scaleway => "scaleway"
  | hetzner => "hetzner"

/-- PROVIDERS table (spawn_node.py lines 56-69).  The monthly cost is
kept as its JSON rendering ("1.8" for the float 1.80, "3.49"). -/
def providerScript : Provider → String
  | Provider.scaleway => "providers/scaleway.py"
  | Provider.hetzner => "providers/hetzner.py"

def providerCost : Provider → String
  | Provider.scaleway => "1.8"
  | Provider.hetzner => "3.49"

def providerZone : Provider → String
  | Provider.scaleway => "fr-par-1"
  | Provider.hetzner => "fsn1"

def providerType : Provider → String
  | Provider.scaleway => "STARDUST1-S"
  | Provider.hetzner => "CX22"

structure World where
  /-- exit code of the provider `create` subprocess -/
  createCode : Nat
  /-- exit code of the provider `destroy` subprocess -/
  destroyCode : Nat
  /-- stdout of the i-th provider `list` subprocess of the run -/
  listStdout : Nat → String
  /-- `CLOUDFLARE_API_TOKEN` is configured -/
  dnsToken : Bool
  /-- Cloudflare reports success for the upsert -/
  dnsSuccess : Bool
  /-- a DNS record for the name already exists (delete path) -/
  dnsExisting : Bool
  /-- `wait_for_ssh` reaches port 22 within its 120 s bound -/
  sshOk : Bool
  /-- exit code of the i-th remote `ssh_run` command of `bootstrap_node` -/
  sshExit : Nat → Nat
  /-- `DISCORD_BACKUP_WEBHOOK` configuration -/
  webhook : Option String
  /-- HTTP status returned by the Discord POST -/
  notifyStatus : Nat
  /-- the Discord POST raises a transport exception -/
  notifyRaises : Bool
  /-- `datetime.now().strftime('%Y-%m-%d')` -/
  today : String

/-- Rendered JSON values of the identity document. -/
inductive JVal where
  | jstr (s : String)
  | jnum (rendered : String)
  | jarr (elems : List String)
deriving DecidableEq, Repr

inductive Event where
  /-- a provider subprocess invocation `python3 <script> cmd *args`
  (spawn_node.py lines 88-95) -/
  | provCmd (p : Provider) (cmd : String) (args : List String)
  /-- the Cloudflare upsert performed by `create_dns` once the token is
  configured (lines 110-142) -/
  | dnsCreate (recordName ip : String)
  /-- the Cloudflare lookup-and-delete performed by `delete_dns`
  (lines 145-163) -/
  | dnsDelete (recordName : String)
  /-- the i-th remote command issued by `bootstrap_node` via `ssh_run` -/
  | sshRun (idx : Nat)
  /-- the remote command writing `/var/www/html/env.json` (lines
  276-291); it is remote command number 10 of the bootstrap sequence -/
  | writeEnvJson (doc : List (String × JVal))
  /-- a call to `discord_notify` (delivery outcome not recorded: the
  callers discard it) -/
  | notifyAttempt (msg : String)
  /-- `time.sleep(secs)` -/
  | sleep (secs : Nat)
deriving DecidableEq, Repr

/-- spawn_node.py lines 72-84: no webhook → `False`; transport
exception → caught, `False`; otherwise `status == 204`. -/
def discord_notify (w : World) (_msg : String) : Bool :=
  match w.webhook with
  | none => false
  | some _ => if w.notifyRaises then false else w.notifyStatus == 204

/-- spawn_node.py lines 110-142, `create_dns`: without a token the
function returns `False` before any request; with a token the record is
looked up and updated-or-created, returning Cloudflare's success flag. -/
def create_dns (w : World) (name ip : String) : Bool × List Event :=
  if w.dnsToken then (w.dnsSuccess, [Event.dnsCreate name ip])
  else (false, [])

/-- spawn_node.py lines 145-163, `delete_dns`: look the record up and
delete it when present (`True`), else report `False`.  The event marks
the deletion attempt (lookup plus conditional DELETE). -/
def delete_dns (w : World) (name : String) : Bool × List Event :=
  (w.dnsExisting, [Event.dnsDelete name])

/-- Identity document written to `/var/www/html/env.json`
(spawn_node.py lines 276-289). -/
def envDoc (w : World) (name : String) (p : Provider) :
    List (String × JVal) :=
  [("node", JVal.jstr name),
   ("hostname", JVal.jstr (name ++ ".giobi.com")),
   ("provider", JVal.jstr p.name),
   ("zone", JVal.jstr (providerZone p)),
   ("type", JVal.jstr (providerType p)),
   ("purpose", JVal.jstr "gitbackup-node"),
   ("cost_monthly_eur", JVal.jnum (providerCost p)),
   ("created", JVal.jstr w.today),
   ("owner", JVal.jstr "giobi"),
   ("ssh", JVal.jstr ("giobi@" ++ name ++ ".giobi.com")),
   ("services", JVal.jarr ["gitbackup", "heartbeat"]),
   ("status", JVal.jstr "active")]

/-- spawn_node.py lines 194-344, `bootstrap_node`: eighteen `ssh_run`
invocations in a fixed order (user setup, packages, hostname, `.env`
write and chown, repo clone, backup dir, daily script write/chmod/cron,
`env.json` write, system-json script write/run/cron, nginx config and
reload, gitbackup config write and chown).  The source never inspects
the exit code returned by any `ssh_run` call and ends with
`return True`, so the result is `true` for every world and every
command is issued unconditionally. -/
def bootstrap_node (w : World) (name : String) (p : Provider) :
    Bool × List Event :=
  (true,
   [Event.sshRun 0, Event.sshRun 1, Event.sshRun 2, Event.sshRun 3,
    Event.sshRun 4, Event.sshRun 5, Event.sshRun 6, Event.sshRun 7,
    Event.sshRun 8, Event.sshRun 9,
    Event.writeEnvJson (envDoc w name p),
    Event.sshRun 11, Event.sshRun 12, Event.sshRun 13, Event.sshRun 14,
    Event.sshRun 15, Event.sshRun 16, Event.sshRun 17])

/-- spawn_node.py lines 363-367: `for _ in range(12): ip = get_vm_ip(..);
if ip: break; time.sleep(5)`.  `idx` numbers the provider `list`
invocations of the run. -/
def pollIp (w : World) (p : Provider) (name : String) :
    Nat → Nat → Option String × List Event
  | 0, _ => (none, [])
  | Nat.succ fuel, idx =>
    match get_vm_ip (w.listStdout idx) name with
    | some ip => (some ip, [Event.provCmd p "list" []])
    | none =>
      let r := pollIp w p name fuel (idx + 1)
      (r.fst, Event.provCmd p "list" [] :: Event.sleep 5 :: r.snd)

/-- Success notification text (spawn_node.py lines 396-401). -/
def msgAlive (name : String) (p : Provider) (ip : String) : String :=
  "🟢 **" ++ name ++ "** is ALIVE!\n• Provider: " ++ p.name ++
    "\n• IP: " ++ ip ++ "\n• SSH: `ssh giobi@" ++ name ++
    ".giobi.com`\n• Endpoints: http://" ++ name ++ ".giobi.com/env"

/-- Pre-destroy notification text (spawn_node.py line 417). -/
def msgShutdown (name : String) : String :=
  "🔴 **" ++ name ++ "** shutting down..."

/-- Final destroy notification text (spawn_node.py line 432). -/
def msgDestroyed (name : String) (ip? : Option String) : String :=
  "💀 **" ++ name ++ "** destroyed\n• Was at: " ++ ip?.getD "unknown"

/-- spawn_node.py lines 347-408, `spawn_node`: create the VM (abort on
a non-zero exit code), sleep 15 s, poll for the address (12 attempts,
5 s apart), abort when none; attempt the DNS upsert (its failure only
prints a warning); wait for SSH (abort on timeout), sleep 5 s,
bootstrap, notify, succeed. -/
def spawn_node (w : World) (name : String) (p : Provider) :
    Bool × List Event :=
  let eCreate := [Event.provCmd p "create" [name]]
  if w.createCode ≠ 0 then (false, eCreate)
  else
    let poll := pollIp w p name 12 0
    let eAddr := eCreate ++ Event.sleep 15 :: poll.snd
    match poll.fst with
    | none => (false, eAddr)
    | some ip =>
      let dns := create_dns w name ip
      let eDns := eAddr ++ dns.snd
      if ¬ w.sshOk then (false, eDns)
      else
        let boot := bootstrap_node w name p
        if ¬ boot.fst then (false, eDns ++ Event.sleep 5 :: boot.snd)
        else
          let _delivered := discord_notify w (msgAlive name p ip)
          (true,
           eDns ++ Event.sleep 5 :: boot.snd ++
             [Event.notifyAttempt (msgAlive name p ip)])

/-- spawn_node.py lines 411-436, `destroy_node`: notify, fetch the
last-known IP (one provider `list`), run the provider `destroy`
subprocess with no argument — its exit code is bound and never
examined — then delete the DNS record and send the final notification;
always returns `True`. -/
def destroy_node (w : World) (name : String) (p : Provider) :
    Bool × List Event :=
  let _d1 := discord_notify w (msgShutdown name)
  let ip? := get_vm_ip (w.listStdout 0) name
  let _destroyExit := w.destroyCode
  let ddel := delete_dns w name
  let _d2 := discord_notify w (msgDestroyed name ip?)
  (true,
   Event.notifyAttempt (msgShutdown name) ::
     Event.provCmd p "list" [] ::
     Event.provCmd p "destroy" [] ::
     ddel.snd ++ [Event.notifyAttempt (msgDestroyed name ip?)])

/-- spawn_node.py lines 439-454, `main`: dispatch on `--destroy` and
call the lifecycle function, discarding its boolean result; the script
never calls `sys.exit`, so the interpreter exits with status 0 on both
paths.  Result: (process exit code, lifecycle outcome, trace). -/
def main_run (w : World) (name : String) (p : Provider)
    (destroyFlag : Bool) : Nat × Bool × List Event :=
  if destroyFlag then
    let r := destroy_node w name p
    (0, r.fst, r.snd)
  else
    let r := spawn_node w name p
    (0, r.fst, r.snd)

/-! ## Trace observations -/

def isCreateEvent : Event → Bool
  | Event.provCmd _ cmd _ => cmd == "create"
  | _ => false

def isListEvent : Event → Bool
  | Event.provCmd _ cmd _ => cmd == "list"
  | _ => false

def isDnsCreateEvent : Event → Bool
  | Event.dnsCreate _ _ => true
  | _ => false

/-- Remote bootstrap commands: the plain `ssh_run` events plus the
`env.json` write (which is itself an `ssh_run` in the source). -/
def isRemoteCmd : Event → Bool
  | Event.sshRun _ => true
  | Event.writeEnvJson _ => true
  | _ => false

def isSleepEvent (n : Nat) : Event → Bool
  | Event.sleep m => m == n
  | _ => false

def isPSleep (n : Nat) : PEvent → Bool
  | PEvent.psleep m => m == n
  | _ => false

def isPPost : PEvent → Bool
  | PEvent.apiPost _ _ => true
  | _ => false

/-- Replace only the notification-related behaviours of a world
(webhook configuration, transport exception, HTTP status). -/
def withNotify (w : World) (webhook : Option String) (status : Nat)
    (raises : Bool) : World :=
  { w with webhook := webhook, notifyStatus := status,
           notifyRaises := raises }

/-! ## Concrete worlds used by witnesses and counterexamples -/

/-- A fully healthy environment: create succeeds, the very first
provider listing shows an address on the requested node's line, SSH is
reachable, DNS and Discord are configured, every remote command
succeeds. -/
def happyWorld : World :=
  { createCode := 0, destroyCode := 0
    listStdout := fun _ => "b1 running 1.2.3.4 STARDUST1-S"
    dnsToken := true, dnsSuccess := true, dnsExisting := true
    sshOk := true, sshExit := fun _ => 0
    webhook := some "https://discord.example/webhook"
    notifyStatus := 204, notifyRaises := false
    today := "2026-10-12" }

/-- Same environment except that every remote bootstrap command exits
with code 1. -/
def sshFailWorld : World :=
  { happyWorld with sshExit := fun _ => 1 }

/-- Same environment except that the provider `create` subprocess exits
with code 1. -/
def createFailWorld : World :=
  { happyWorld with createCode := 1 }

/-- Same environment except that no provider listing ever shows an
address (empty `list` output). -/
def noIpWorld : World :=
  { happyWorld with listStdout := fun _ => "" }

/-- Scaleway destroy environment: one server `gitbackup-node` with id
`s1`, one attached `sbs_volume` `v1` whose deletion fails, instance
already stopped at the first poll. -/
def scwWorldEx : ScwWorld :=
  { servers := [("gitbackup-node", "s1")]
    volumesOf := fun _ => [{ id := "v1", volumeType := "sbs_volume" }]
    stateAt := fun _ => "stopped"
    volDeleteFails := fun _ => true }

/-- Hetzner destroy environment: one server `gitbackup-node`, id 42. -/
def hzWorldEx : HzWorld :=
  { servers := [("gitbackup-node", "42")] }

/-! ## Helper lemmas -/

lemma vmIpFromLines_eq_find (name : List Char) (lines : List (List Char)) :
    vmIpFromLines name lines =
      match lines.find?
          (fun l => pyIn name l && (firstIpToken (pySplitWs l)).isSome) with
      | none => none
      | some l => firstIpToken (pySplitWs l) := by
  induction lines with
  | nil => simp [vmIpFromLines]
  | cons l ls ih =>
    by_cases hin : pyIn name l = true
    · cases htok : firstIpToken (pySplitWs l) with
      | none =>
        rw [vmIpFromLines, if_pos hin, htok, ih,
          List.find?_cons_of_neg _ (by simp [hin, htok])]
      | some ip =>
        rw [vmIpFromLines, if_pos hin, htok,
          List.find?_cons_of_pos _ (by simp [hin, htok])]
        simp [htok]
    · rw [vmIpFromLines, if_neg hin, ih,
        List.find?_cons_of_neg _ (by simp [hin])]

lemma pollIp_createCount (w : World) (p : Provider) (name : String) :
    ∀ fuel idx, ((pollIp w p name fuel idx).snd).countP isCreateEvent = 0 := by
  intro fuel
  induction fuel with
  | zero => intro idx; simp [pollIp]
  | succ f ih =>
    intro idx
    rw [pollIp]
    cases h : get_vm_ip (w.listStdout idx) name with
    | some ip => simp +decide [isCreateEvent]
    | none => simp +decide [List.countP_cons, ih (idx + 1), isCreateEvent]

lemma pollIp_dnsCreateCount (w : World) (p : Provider) (name : String) :
    ∀ fuel idx, ((pollIp w p name fuel idx).snd).countP isDnsCreateEvent = 0 := by
  intro fuel
  induction fuel with
  | zero => intro idx; simp [pollIp]
  | succ f ih =>
    intro idx
    rw [pollIp]
    cases h : get_vm_ip (w.listStdout idx) name with
    | some ip => simp [isDnsCreateEvent]
    | none => simp [List.countP_cons, ih (idx + 1), isDnsCreateEvent]

lemma pollIp_listCount_le (w : World) (p : Provider) (name : String) :
    ∀ fuel idx, ((pollIp w p name fuel idx).snd).countP isListEvent ≤ fuel := by
  intro fuel
  induction fuel with
  | zero => intro idx; simp [pollIp]
  | succ f ih =>
    intro idx
    rw [pollIp]
    cases h : get_vm_ip (w.listStdout idx) name with
    | some ip => simp +decide [isListEvent]
    | none =>
      have := ih (idx + 1)
      simp +decide [List.countP_cons, isListEvent]
      omega

lemma pollIp_all_none (w : World) (p : Provider) (name : String) :
    ∀ fuel idx,
      (∀ i, i < fuel → get_vm_ip (w.listStdout (idx + i)) name = none) →
      (pollIp w p name fuel idx).fst = none ∧
      ((pollIp w p name fuel idx).snd).countP isListEvent = fuel ∧
      ((pollIp w p name fuel idx).snd).countP (isSleepEvent 5) = fuel := by
  intro fuel
  induction fuel with
  | zero => intro idx _; simp [pollIp]
  | succ f ih =>
    intro idx h
    have h0 : get_vm_ip (w.listStdout idx) name = none := by
      simpa using h 0 (Nat.succ_pos f)
    have hrest : ∀ i, i < f → get_vm_ip (w.listStdout (idx + 1 + i)) name = none := by
      intro i hi
      have := h (i + 1) (Nat.succ_lt_succ hi)
      have e : idx + (i + 1) = idx + 1 + i := by omega
      rwa [e] at this
    obtain ⟨h1, h2, h3⟩ := ih (idx + 1) hrest
    rw [pollIp, h0]
    refine ⟨by simpa using h1, ?_, ?_⟩ <;>
      simp +decide [List.countP_cons, h2, h3, isListEvent, isSleepEvent]

lemma scwPoll_sleep1_le (w : ScwWorld) (sid : String) :
    ∀ fuel i, ((scwPoll w sid fuel i).countP (isPSleep 1)) ≤ fuel := by
  intro fuel
  induction fuel with
  | zero => intro i; simp [scwPoll]
  | succ f ih =>
    intro i
    rw [scwPoll]
    by_cases hs : (w.stateAt i == "stopped") = true
    · simp +decide [hs, List.countP_cons, isPSleep]
    · have := ih (i + 1)
      simp +decide [hs, List.countP_cons, isPSleep]
      omega

lemma scwDeleteVolumes_mem (w : ScwWorld) :
    ∀ ids vid, vid ∈ ids →
      PEvent.apiDelete ("volumes/" ++ vid) ∈ scwDeleteVolumes w ids := by
  intro ids
  induction ids with
  | nil => intro vid h; cases h
  | cons a rest ih =>
    intro vid h
    rw [scwDeleteVolumes]
    rcases List.mem_cons.mp h with h1 | h2
    · subst h1; simp
    · by_cases hf : w.volDeleteFails a <;> simp [hf, ih vid h2]

lemma scwDeleteVolumes_log (w : ScwWorld) :
    ∀ ids vid, vid ∈ ids → w.volDeleteFails vid = true →
      PEvent.plog ("Could not delete volume " ++ vid) ∈
        scwDeleteVolumes w ids := by
  intro ids
  induction ids with
  | nil => intro vid h; cases h
  | cons a rest ih =>
    intro vid h hfail
    rw [scwDeleteVolumes]
    rcases List.mem_cons.mp h with h1 | h2
    · subst h1; simp [hfail]
    · by_cases hf : w.volDeleteFails a <;> simp [hf, ih vid h2 hfail]

lemma scwDeleteVolumes_sleep_count (w : ScwWorld) (n : Nat) :
    ∀ ids, (scwDeleteVolumes w ids).countP (isPSleep n) = 0 := by
  intro ids
  induction ids with
  | nil => simp [scwDeleteVolumes]
  | cons a rest ih =>
    rw [scwDeleteVolumes]
    by_cases hf : w.volDeleteFails a <;>
      simp [hf, List.countP_cons, ih, isPSleep]

lemma scwVolumePhase_of_ne (w : ScwWorld) (sid : String)
    (hne : scwVolumeIds w sid ≠ []) :
    scwVolumePhase w sid =
      PEvent.psleep 5 :: scwDeleteVolumes w (scwVolumeIds w sid) := by
  rw [scwVolumePhase]
  cases hids : scwVolumeIds w sid with
  | nil => exact absurd hids hne
  | cons a rest => simp

lemma spawn_create_mem (w : World) (name : String) (p : Provider) :
    Event.provCmd p "create" [name] ∈ (spawn_node w name p).snd := by
  rw [spawn_node]
  by_cases hc : w.createCode ≠ 0
  · simp [hc]
  · cases hpoll : (pollIp w p name 12 0).fst with
    | none => simp [hc, hpoll]
    | some ip =>
      by_cases hssh : w.sshOk <;>
        simp [hc, hpoll, hssh, bootstrap_node]

/-! ## Claims -/

/-- C1 counterexample: in a world where every remote bootstrap command
exits with code 1 — in particular the first step fails — the bootstrap
phase still executes all 18 remote commands, reports success, and the
whole spawn lifecycle ends in success.  This contradicts the claim that
a failing step k prevents execution of steps k+1..n and makes the
lifecycle fail. -/
theorem bootstrap_ignores_failing_step :
    sshFailWorld.sshExit 0 = 1 ∧
    (bootstrap_node sshFailWorld "b1" Provider.scaleway).fst = true ∧
    ((bootstrap_node sshFailWorld "b1" Provider.scaleway).snd).countP
      isRemoteCmd = 18 ∧
    (spawn_node sshFailWorld "b1" Provider.scaleway).fst = true := by
  decide

/-- C1 (amended): `bootstrap_node` never inspects the exit codes of its
remote commands: for every world it executes all 18 remote commands,
reports success, and the lifecycle outcome of `spawn_node` is
independent of the remote commands' exit codes. -/
theorem bootstrap_runs_all_steps_and_reports_success
    (w : World) (name : String) (p : Provider) (f : Nat → Nat) :
    (bootstrap_node w name p).fst = true ∧
    ((bootstrap_node w name p).snd).countP isRemoteCmd = 18 ∧
    spawn_node { w with sshExit := f } name p = spawn_node w name p := by
  refine ⟨rfl, ?_, rfl⟩
  simp +decide [bootstrap_node, isRemoteCmd, List.countP_cons]

/-- C3 counterexample: when the provider `create` subprocess exits with
code 1 the spawn lifecycle fails fatally, yet the process still exits
with code 0 — `main` ignores the boolean result of `spawn_node` and
never calls `sys.exit`.  This contradicts "exit code 0 if and only if
the full lifecycle succeeded". -/
theorem main_exit_zero_on_create_failure :
    (spawn_node createFailWorld "b1" Provider.scaleway).fst = false ∧
    (main_run createFailWorld "b1" Provider.scaleway false).fst = 0 := by
  decide

/-- C3 (amended): for every invocation of the CLI (spawn or destroy),
the process exit code is 0 regardless of the lifecycle outcome; the
lifecycle outcome computed by `main` is exactly the ignored boolean
result of `spawn_node`/`destroy_node`. -/
theorem main_exit_always_zero
    (w : World) (name : String) (p : Provider) (d : Bool) :
    (main_run w name p d).fst = 0 ∧
    (main_run w name p d).snd.fst =
      (if d then (destroy_node w name p).fst else (spawn_node w name p).fst) := by
  cases d <;> simp [main_run]

/-- C4: for every destroy invocation the DNS deletion for the node's
name is attempted (a `dnsDelete` event is always in the trace), the
final notification is attempted, the run completes with `True`, and the
whole observable run is independent of the provider `destroy`
subprocess's exit code. -/
theorem destroy_deletes_dns_despite_vm_failure
    (w : World) (c : Nat) (name : String) (p : Provider) :
    Event.dnsDelete name ∈ (destroy_node w name p).snd ∧
    Event.notifyAttempt
        (msgDestroyed name (get_vm_ip (w.listStdout 0) name)) ∈
      (destroy_node w name p).snd ∧
    destroy_node { w with destroyCode := c } name p =
      destroy_node w name p ∧
    (destroy_node w name p).fst = true := by
  refine ⟨?_, ?_, rfl, rfl⟩ <;>
    simp [destroy_node, delete_dns]

/-- C7: during one spawn lifecycle run the provider `create` subprocess
is invoked at most once, in every world — including every world in
which the address poll, DNS, reachability or bootstrap phase fails. -/
theorem spawn_create_called_at_most_once
    (w : World) (name : String) (p : Provider) :
    ((spawn_node w name p).snd).countP isCreateEvent ≤ 1 := by
  rw [spawn_node]
  by_cases hc : w.createCode ≠ 0
  · simp +decide [hc, isCreateEvent]
  · cases hpoll : (pollIp w p name 12 0).fst with
    | none =>
      simp +decide [hc, hpoll, List.countP_cons, List.countP_append,
        pollIp_createCount, isCreateEvent]
    | some ip =>
      by_cases hssh : w.sshOk <;> by_cases ht : w.dnsToken <;>
        simp +decide [hc, hpoll, hssh, ht, create_dns, bootstrap_node,
          List.countP_cons, List.countP_append, pollIp_createCount,
          isCreateEvent]

/-- C8: the lifecycle result and the full event trace of both spawn and
destroy are identical across any two runs that differ only in the
notification behaviour (webhook missing or present, transport
exception, any HTTP status): delivery failure is absorbed inside
`discord_notify` and never propagated. -/
theorem lifecycle_independent_of_notification
    (w : World) (name : String) (p : Provider) (d : Bool)
    (wh₁ wh₂ : Option String) (st₁ st₂ : Nat) (r₁ r₂ : Bool) :
    spawn_node (withNotify w wh₁ st₁ r₁) name p =
      spawn_node (withNotify w wh₂ st₂ r₂) name p ∧
    destroy_node (withNotify w wh₁ st₁ r₁) name p =
      destroy_node (withNotify w wh₂ st₂ r₂) name p ∧
    main_run (withNotify w wh₁ st₁ r₁) name p d =
      main_run (withNotify w wh₂ st₂ r₂) name p d := by
  refine ⟨rfl, rfl, ?_⟩
  cases d <;> rfl

/-- C9: for every requested node name and both providers, the create
request body names the server with the fixed string `gitbackup-node`;
the extra CLI argument passed by `spawn_node` (the node name) is bound
to the provider scripts' `cloud_init_file` parameter, so the requested
name never becomes the provider-side resource name. -/
theorem provider_create_uses_fixed_name :
    ∀ (name : String) (fs : String → Option String)
      (pid oid : Option String) (w : World) (p : Provider),
      cliExtraArg ["create", name] = some name ∧
      List.lookup "name"
          (hetzner_create_config (cliExtraArg ["create", name]) fs) =
        some "gitbackup-node" ∧
      List.lookup "name" (scaleway_create_config pid oid) =
        some "gitbackup-node" ∧
      Event.provCmd p "create" [name] ∈ (spawn_node w name p).snd := by
  intro name fs pid oid w p
  refine ⟨rfl, ?_, ?_, spawn_create_mem w name p⟩
  · show List.lookup "name" (hetzner_create_config (some name) fs) = _
    unfold hetzner_create_config
    by_cases h0 : name = ""
    · simp +decide [h0, hetznerVM_CONFIG]
    · cases hfs : fs name <;>
        simp +decide [h0, hfs, hetznerVM_CONFIG]
  · unfold scaleway_create_config
    cases pid <;> cases oid <;>
      simp +decide [scalewayVM_CONFIG]

/-- C2: whenever the provider create subprocess succeeds, the very
first provider listing already shows an address on the requested node's
line, and the host is reachable on port 22, the spawn lifecycle reaches
its success terminal state and the identity document written to the
host carries the field "node" with exactly the requested name. -/
theorem spawn_success_identity (w : World) (name : String) (p : Provider)
    (ip : String)
    (hc : w.createCode = 0)
    (hip : get_vm_ip (w.listStdout 0) name = some ip)
    (hssh : w.sshOk = true) :
    (spawn_node w name p).fst = true ∧
    Event.writeEnvJson (envDoc w name p) ∈ (spawn_node w name p).snd ∧
    List.lookup "node" (envDoc w name p) = some (JVal.jstr name) := by
  have h12 : pollIp w p name 12 0 = (some ip, [Event.provCmd p "list" []]) := by
    show pollIp w p name (Nat.succ 11) 0 = _
    rw [pollIp, hip]
  have hpollfst : (pollIp w p name 12 0).fst = some ip := by rw [h12]
  refine ⟨?_, ?_, ?_⟩
  · simp [spawn_node, hc, hpollfst, hssh, bootstrap_node]
  · by_cases ht : w.dnsToken <;>
      simp [spawn_node, hc, hpollfst, hssh, ht, create_dns, bootstrap_node]
  · simp +decide [envDoc]

/-- C2 witness at the concrete healthy world and node "b1". -/
theorem spawn_success_identity_witness :
    (spawn_node happyWorld "b1" Provider.scaleway).fst = true ∧
    Event.writeEnvJson (envDoc happyWorld "b1" Provider.scaleway) ∈
      (spawn_node happyWorld "b1" Provider.scaleway).snd ∧
    List.lookup "node" (envDoc happyWorld "b1" Provider.scaleway) =
      some (JVal.jstr "b1") :=
  spawn_success_identity happyWorld "b1" Provider.scaleway "1.2.3.4"
    rfl (by decide) rfl

/-- C5: address acquisition performs at most 12 provider `list` polls in
every world; when no listing within the bound yields an address the
lifecycle fails with no DNS record created, and (when create succeeded)
exactly 12 polls were made, each followed by a 5-second sleep, after
the initial 15-second settle sleep. -/
theorem spawn_poll_bounded_no_dns (w : World) (name : String) (p : Provider) :
    ((spawn_node w name p).snd).countP isListEvent ≤ 12 ∧
    ((∀ i, i < 12 → get_vm_ip (w.listStdout i) name = none) →
      (spawn_node w name p).fst = false ∧
      ((spawn_node w name p).snd).countP isDnsCreateEvent = 0 ∧
      (w.createCode = 0 →
        ((spawn_node w name p).snd).countP isListEvent = 12 ∧
        ((spawn_node w name p).snd).countP (isSleepEvent 5) = 12 ∧
        Event.sleep 15 ∈ (spawn_node w name p).snd)) := by
  constructor
  · rw [spawn_node]
    by_cases hc : w.createCode ≠ 0
    · simp +decide [hc, isListEvent]
    · have hple := pollIp_listCount_le w p name 12 0
      cases hpoll : (pollIp w p name 12 0).fst with
      | none =>
        simp +decide [hc, hpoll, List.countP_cons, List.countP_append,
          isListEvent]
        omega
      | some ip =>
        by_cases hssh : w.sshOk <;> by_cases ht : w.dnsToken <;>
          simp +decide [hc, hpoll, hssh, ht, create_dns, bootstrap_node,
            List.countP_cons, List.countP_append, isListEvent] <;>
          omega
  · intro hnone
    have h0 : ∀ i, i < 12 → get_vm_ip (w.listStdout (0 + i)) name = none := by
      intro i hi
      rw [Nat.zero_add]
      exact hnone i hi
    obtain ⟨hfst, hlist, hsleep⟩ := pollIp_all_none w p name 12 0 h0
    by_cases hc : w.createCode ≠ 0
    · refine ⟨by simp [spawn_node, hc], ?_, ?_⟩
      · simp +decide [spawn_node, hc, isDnsCreateEvent]
      · intro hz
        exact absurd hz hc
    · refine ⟨by simp [spawn_node, hc, hfst], ?_, ?_⟩
      · simp +decide [spawn_node, hc, hfst, List.countP_cons,
          List.countP_append, pollIp_dnsCreateCount, isDnsCreateEvent]
      · intro _
        refine ⟨?_, ?_, ?_⟩
        · simp +decide [spawn_node, hc, hfst, List.countP_cons,
            List.countP_append, isListEvent, hlist]
        · simp +decide [spawn_node, hc, hfst, List.countP_cons,
            List.countP_append, isSleepEvent, hsleep]
        · simp [spawn_node, hc, hfst]

/-- C5 witness: with a provider that never lists an address, the spawn
fails, created no DNS record, and polled exactly 12 times. -/
theorem spawn_poll_bounded_no_dns_witness :
    (spawn_node noIpWorld "b1" Provider.scaleway).fst = false ∧
    ((spawn_node noIpWorld "b1" Provider.scaleway).snd).countP
      isDnsCreateEvent = 0 ∧
    ((spawn_node noIpWorld "b1" Provider.scaleway).snd).countP
      isListEvent = 12 := by
  have h := (spawn_poll_bounded_no_dns noIpWorld "b1" Provider.scaleway).2
    (by decide)
  exact ⟨h.1, h.2.1, (h.2.2 (by decide)).1⟩

/-- C6 counterexample: the Hetzner destroy sequence is a lookup followed
directly by the server DELETE — no power-off request, no powered-off
polling, no settle sleep, no volume deletion — contradicting the claim
that every provider's destroy sequence performs them. -/
theorem hetzner_destroy_no_poweroff :
    hz_destroy_server hzWorldEx none =
      [PEvent.apiGet "servers", PEvent.apiDelete "servers/42"] ∧
    (hz_destroy_server hzWorldEx none).countP isPPost = 0 ∧
    (hz_destroy_server hzWorldEx none).countP (isPSleep 1) = 0 ∧
    (hz_destroy_server hzWorldEx none).countP (isPSleep 5) = 0 := by
  decide

/-- C6 (amended): only the Scaleway destroy sequence powers off before
deleting (failure of the power-off ignored), polls the powered-off
state at most 30 times at a 1-second interval, deletes the instance
regardless of the poll's outcome, and — when non-local (sbs) volumes
were attached — sleeps 5 seconds and then attempts to delete every such
volume, logging per-volume failures; the Hetzner destroy sequence is a
name lookup followed directly by the server DELETE. -/
theorem destroy_sequences_by_provider
    (w : ScwWorld) (hw : HzWorld) (sid hsid : String)
    (h : scwFindServer w = some sid) (hh : hzFindServer hw = some hsid) :
    (∃ post,
        scw_destroy_server w none =
          PEvent.apiGet "servers" :: PEvent.apiGet ("servers/" ++ sid) ::
            PEvent.apiPost ("servers/" ++ sid ++ "/action") "poweroff" ::
              post ∧
        PEvent.apiDelete ("servers/" ++ sid) ∈ post) ∧
    (scw_destroy_server w none).countP (isPSleep 1) ≤ 30 ∧
    (scwVolumeIds w sid ≠ [] →
      ∃ pre post,
        scw_destroy_server w none = pre ++ PEvent.psleep 5 :: post ∧
        ∀ vid ∈ scwVolumeIds w sid,
          PEvent.apiDelete ("volumes/" ++ vid) ∈ post) ∧
    (∀ vid ∈ scwVolumeIds w sid, w.volDeleteFails vid = true →
      PEvent.plog ("Could not delete volume " ++ vid) ∈
        scw_destroy_server w none) ∧
    hz_destroy_server hw none =
      [PEvent.apiGet "servers", PEvent.apiDelete ("servers/" ++ hsid)] := by
  have hTrace : scw_destroy_server w none =
      PEvent.apiGet "servers" :: PEvent.apiGet ("servers/" ++ sid) ::
        PEvent.apiPost ("servers/" ++ sid ++ "/action") "poweroff" ::
          (scwPoll w sid 30 0 ++
            PEvent.apiDelete ("servers/" ++ sid) :: scwVolumePhase w sid) := by
    simp [scw_destroy_server, h]
  refine ⟨⟨_, hTrace, by simp⟩, ?_, ?_, ?_, by simp [hz_destroy_server, hh]⟩
  · have hple := scwPoll_sleep1_le w sid 30 0
    have hvol : (scwVolumePhase w sid).countP (isPSleep 1) = 0 := by
      rw [scwVolumePhase]
      cases hids : scwVolumeIds w sid with
      | nil => simp
      | cons a rest =>
        simp +decide [List.countP_cons, scwDeleteVolumes_sleep_count,
          isPSleep]
    rw [hTrace]
    simp +decide [List.countP_cons, List.countP_append, hvol, isPSleep]
    omega
  · intro hne
    refine ⟨PEvent.apiGet "servers" :: PEvent.apiGet ("servers/" ++ sid) ::
      PEvent.apiPost ("servers/" ++ sid ++ "/action") "poweroff" ::
        (scwPoll w sid 30 0 ++ [PEvent.apiDelete ("servers/" ++ sid)]),
      scwDeleteVolumes w (scwVolumeIds w sid), ?_, ?_⟩
    · rw [hTrace, scwVolumePhase_of_ne w sid hne]
      simp
    · intro vid hv
      exact scwDeleteVolumes_mem w _ vid hv
  · intro vid hv hfail
    have hne : scwVolumeIds w sid ≠ [] := by
      intro hz
      rw [hz] at hv
      cases hv
    rw [hTrace, scwVolumePhase_of_ne w sid hne]
    have := scwDeleteVolumes_log w (scwVolumeIds w sid) vid hv hfail
    simp [List.mem_append, List.mem_cons, this]

/-- C6 witness at the concrete worlds: the failing volume v1 is still
attempted and its failure logged on Scaleway, and the Hetzner trace is
exactly lookup-then-delete. -/
theorem destroy_sequences_by_provider_witness :
    PEvent.plog ("Could not delete volume " ++ "v1") ∈
      scw_destroy_server scwWorldEx none ∧
    hz_destroy_server hzWorldEx none =
      [PEvent.apiGet "servers", PEvent.apiDelete ("servers/" ++ "42")] := by
  have h := destroy_sequences_by_provider scwWorldEx hzWorldEx "s1" "42"
    (by decide) (by decide)
  exact ⟨h.2.2.2.1 "v1" (by decide) (by decide), h.2.2.2.2⟩

/-- C10 counterexample: when the first output line containing the name
has no token with exactly three dots, the source function keeps
scanning and answers from a later line — while the claim's description
(`get_vm_ip_claimed`) answers `none` from the first matching line. -/
theorem get_vm_ip_not_first_matching_line :
    get_vm_ip "b1 nodots\nb1 1.2.3.4" "b1" = some "1.2.3.4" ∧
    get_vm_ip_claimed "b1 nodots\nb1 1.2.3.4" "b1" = none := by
  decide

/-- C10 (amended): address lookup returns the first three-dot token of
the earliest line that both contains the node name as a substring and
holds such a token (matching lines without one are skipped, later lines
still considered), `none` when no line qualifies; matching is by
substring, so a node name occurring inside another server's line
selects that line's address (witnessed by the concrete lookup of "b1"
inside the line of server "b10"). -/
theorem get_vm_ip_amended_correct :
    (∀ stdout name, get_vm_ip stdout name = get_vm_ip_amended stdout name) ∧
    get_vm_ip "b10 running 5.6.7.8 CX22" "b1" = some "5.6.7.8" := by
  refine ⟨fun stdout name => ?_, by decide⟩
  unfold get_vm_ip get_vm_ip_amended
  rw [vmIpFromLines_eq_find]
  cases h : (pyLines stdout).find?
      (fun l => pyIn name.data l && (firstIpToken (pySplitWs l)).isSome) with
  | none => simp [h]
  | some l => simp [h]

end GitBackup
